import Mathlib

/-!
# LiteMap (`src/my-react-app/src/App.jsx`) — shallow embedding

This file embeds the logic-bearing parts of the LiteMap single-page app:
the distance/format utilities, the bias-point state, the free-text search
pipeline (`handleSearch`), the category filter pipeline
(`handleCategoryFilter`), the routing pipeline (`handleDirections`) and the
clear action (`clearAll`).

Modelling conventions:
* JS numbers are modelled by `ℚ` (exact arithmetic; the claims under study
  are structural, not about float rounding).
* `getDistanceKm` in the source is the haversine formula built from
  transcendental functions (`sin`, `cos`, `atan2`, `sqrt`); it is kept
  abstract here as a parameter `dist : ℚ → ℚ → ℚ → ℚ → ℚ` standing for
  `getDistanceKm lat1 lon1 lat2 lon2`.  Every pipeline theorem is proved for
  an arbitrary `dist`, hence in particular for the haversine function.
* Each `fetch` is modelled by an input parameter holding that request's
  parsed response; `none` models a thrown network error (caught by the
  surrounding `try`/`catch`), `some data` a parsed JSON body.
* React `useState` setters are modelled by functional update of a single
  `AppState` record; each handler returns the new state, plus the number of
  geocoding requests it issued (search/filter) or whether a routing request
  was issued (directions).
-/

/-- Provenance tag of the bias point: `'user'` or `'dropped'` in the source. -/
inductive BiasType where
  | user
  | dropped
deriving DecidableEq, Repr

/-- One geocoding API result (`place_id`, `display_name`, `lat`, `lon`);
numeric fields already parsed, as `parseFloat` does in the source. -/
structure SearchItem where
  place_id : ℕ
  display_name : String
  lat : ℚ
  lon : ℚ
deriving DecidableEq, Repr

/-- A search result annotated with its distance from the bias point
(`{...item, distance}` in the source). -/
structure ResultItem extends SearchItem where
  distance : ℚ
deriving DecidableEq, Repr

/-- A map marker created for category-filter results. -/
structure Marker where
  id : String
  position : ℚ × ℚ
  name : String
deriving DecidableEq, Repr

/-- The `selectedPlace` record built in `handleResultClick`. -/
structure SelectedPlace where
  name : String
  address : String
  lat : ℚ
  lon : ℚ
  distance : ℚ
deriving DecidableEq, Repr

/-- The `routeInfo` record.  The source field `end` is a Lean keyword and is
rendered `endPt` here.  `duration` is in minutes and absent in the
straight-line fallback; `distance` is in kilometers; `coordinates` is the
polyline in `[lat, lon]` order. -/
structure RouteInfo where
  start : ℚ × ℚ
  endPt : ℚ × ℚ
  distance : ℚ
  duration : Option ℤ
  destination : String
  coordinates : List (ℚ × ℚ)
deriving DecidableEq, Repr

/-- One route of an OSRM response: GeoJSON geometry in `[lon, lat]` order,
distance in meters, duration in seconds. -/
structure OsrmRoute where
  geometry : List (ℚ × ℚ)
  distance : ℚ
  duration : ℚ
deriving DecidableEq, Repr

/-- Body of an OSRM routing response. -/
structure OsrmResponse where
  code : String
  routes : List OsrmRoute
deriving DecidableEq, Repr

/-- Body of a Nominatim reverse-geocoding response, as used by
`handleMapClick` (only `name` and `display_name` are read). -/
structure RevGeo where
  name : Option String
  display_name : Option String
deriving DecidableEq, Repr

/-- The app state: the `useState` fields of `App` that the embedded handlers
read or write.  Positions are `(lat, lon)` pairs, as the `[lat, lng]` arrays
of the source. -/
structure AppState where
  biasLocation : Option (ℚ × ℚ)
  biasType : Option BiasType
  flyTarget : Option ((ℚ × ℚ) × ℕ)
  isAnimating : Bool
  filterMarkers : List Marker
  searchMarker : Option Marker
  searchQuery : String
  searchResults : List ResultItem
  isSearching : Bool
  activeFilter : Option String
  showSidebar : Bool
  selectedPlace : Option SelectedPlace
  toast : Option String
  routeInfo : Option RouteInfo
deriving DecidableEq, Repr

/-- Source `Math.round`: round half toward positive infinity. -/
def jsRound (q : ℚ) : ℤ := ⌊q + 1 / 2⌋

/-- Source `Number.prototype.toFixed(1)` for the nonnegative values it is applied
to: round `q` to one decimal (ties away from zero, i.e. up) and print with
exactly one digit after the point. -/
def toFixed1 (q : ℚ) : String :=
  let n := jsRound (q * 10)
  toString (n / 10) ++ "." ++ toString (n % 10)

/-- Embeds `formatDistance` from the source: `< 1` km prints whole meters, `< 10`
km prints one decimal in km, otherwise whole km. -/
def formatDistance (km : ℚ) : String :=
  if km < 1 then
    toString (jsRound (km * 1000)) ++ " m"
  else if km < 10 then
    toFixed1 km ++ " km"
  else
    toString (jsRound km) ++ " km"

/-- The common whitespace characters `String.prototype.trim` strips. -/
def isJsWhitespace (c : Char) : Bool :=
  c == ' ' || c == '\t' || c == '\n' || c == '\r'

/-- Source `String.prototype.trim`: strip whitespace from both ends of the string
(structurally, so that concrete instances evaluate). -/
def jsTrim (s : String) : String :=
  ⟨((s.data.dropWhile isJsWhitespace).reverse.dropWhile isJsWhitespace).reverse⟩

/-- Ordering used by the result-sorting comparator
`(a, b) => a.distance - b.distance`: ascending by annotated distance. -/
def byDistance (a b : ResultItem) : Prop := a.distance ≤ b.distance

instance : DecidableRel byDistance := fun a b =>
  inferInstanceAs (Decidable (a.distance ≤ b.distance))

instance : IsTotal ResultItem byDistance := ⟨fun a b => le_total a.distance b.distance⟩

instance : IsTrans ResultItem byDistance := ⟨fun _ _ _ => le_trans⟩

/-- Embeds the spread `...item` plus
`distance: getDistanceKm(lat, lon, item.lat, item.lon)`. -/
def annotate (dist : ℚ → ℚ → ℚ → ℚ → ℚ) (lat lon : ℚ) (item : SearchItem) : ResultItem :=
  { toSearchItem := item, distance := dist lat lon item.lat item.lon }

/-- The shared tail of both pipelines: annotate each result with its distance
from the bias point, sort ascending by that distance (JS `sort` is stable;
insertion sort is stable), and truncate to `maxN` (`.slice(0, maxN)`). -/
def annotateAndRank (dist : ℚ → ℚ → ℚ → ℚ → ℚ) (lat lon : ℚ)
    (data : List SearchItem) (maxN : ℕ) : List ResultItem :=
  (List.insertionSort byDistance (data.map (annotate dist lat lon))).take maxN

/-- The category-filter merge (`App.jsx` lines 429–433): compute the set of
`place_id`s already present in the tight-radius data, then push every
wider-radius item whose id is not in that set. -/
def mergeDedup (data widerData : List SearchItem) : List SearchItem :=
  data ++ widerData.filter
    (fun item => !((data.map SearchItem.place_id).contains item.place_id))

/-- Tier logic of `handleSearch`: tight viewbox first; on zero results widen;
on zero results again drop the viewbox and search country-wide.  Returns the
chosen data (`none` when a fetch threw, caught by the `catch`) and the number
of geocoding requests issued. -/
def searchTiers (r1 r2 r3 : Option (List SearchItem)) :
    Option (List SearchItem) × ℕ :=
  match r1 with
  | none => (none, 1)
  | some d1 =>
    if d1.isEmpty then
      match r2 with
      | none => (none, 2)
      | some d2 =>
        if d2.isEmpty then
          match r3 with
          | none => (none, 3)
          | some d3 => (some d3, 3)
        else (some d2, 2)
    else (some d1, 1)

/-- Tier logic of `handleCategoryFilter`: tight viewbox first; when it yields
fewer than 5 results, issue one wider request and merge with dedup. -/
def categoryTiers (r1 r2 : Option (List SearchItem)) :
    Option (List SearchItem) × ℕ :=
  match r1 with
  | none => (none, 1)
  | some d1 =>
    if d1.length < 5 then
      match r2 with
      | none => (none, 2)
      | some d2 => (some (mergeDedup d1 d2), 2)
    else (some d1, 1)

/-- Markers built from the ranked category results: id `filter-${index}`,
position `[lat, lon]`, name = first segment of the display name. -/
def mkFilterMarkers (data : List ResultItem) : List Marker :=
  data.enum.map (fun p =>
    { id := "filter-" ++ toString p.1,
      position := (p.2.lat, p.2.lon),
      name := (p.2.display_name.splitOn ",").headD "" })

/-- Embeds `ensureBiasLocation`: resolve to the current bias when set; otherwise
acquire one via device geolocation (`geo = some loc` on success, `none` on
denial/error, which falls back to the fixed default coordinate); either way
the provenance becomes `'user'`.  The success branch flies to the location
(`flyTo(loc, 15)`). -/
def ensureBiasLocation (s : AppState) (geo : Option (ℚ × ℚ)) :
    AppState × (ℚ × ℚ) :=
  match s.biasLocation with
  | some b => (s, b)
  | none =>
    match geo with
    | some loc =>
      ({ s with biasLocation := some loc, biasType := some BiasType.user,
                isAnimating := true, showSidebar := false,
                flyTarget := some (loc, 15) }, loc)
    | none =>
      ({ s with biasLocation := some (14.4324, 120.9619),
                biasType := some BiasType.user }, (14.4324, 120.9619))

/-- Embeds `handleSearch`: free-text search.  `geo` is the geolocation outcome used
when no bias is set; `r1 r2 r3` are the three tiers' responses.  Returns the
new state and the number of geocoding requests issued. -/
def handleSearch (dist : ℚ → ℚ → ℚ → ℚ → ℚ) (s : AppState)
    (geo : Option (ℚ × ℚ)) (r1 r2 r3 : Option (List SearchItem)) :
    AppState × ℕ :=
  if jsTrim s.searchQuery = "" ∨ s.isAnimating = true then (s, 0)
  else
    let s1 := { s with activeFilter := none, isSearching := true,
                       filterMarkers := [] }
    let sb := ensureBiasLocation s1 geo
    match searchTiers r1 r2 r3 with
    | (none, n) => ({ sb.1 with isSearching := false }, n)
    | (some data, n) =>
      ({ sb.1 with
          searchResults := annotateAndRank dist sb.2.1 sb.2.2 data 6,
          showSidebar := true, isSearching := false }, n)

/-- Embeds `handleCategoryFilter`: selecting the active category toggles it off and
clears results and markers without any request; otherwise run the two-tier
query, rank, truncate to 8 and build markers. -/
def handleCategoryFilter (dist : ℚ → ℚ → ℚ → ℚ → ℚ) (s : AppState)
    (catId : String) (geo : Option (ℚ × ℚ)) (r1 r2 : Option (List SearchItem)) :
    AppState × ℕ :=
  if s.isAnimating = true then (s, 0)
  else if s.activeFilter = some catId then
    ({ s with activeFilter := none, searchResults := [],
              filterMarkers := [] }, 0)
  else
    let s1 := { s with activeFilter := some catId, searchQuery := "",
                       isSearching := true, searchMarker := none }
    let sb := ensureBiasLocation s1 geo
    match categoryTiers r1 r2 with
    | (none, n) => ({ sb.1 with isSearching := false }, n)
    | (some data, n) =>
      let ranked := annotateAndRank dist sb.2.1 sb.2.2 data 8
      ({ sb.1 with
          searchResults := ranked,
          filterMarkers := mkFilterMarkers ranked,
          showSidebar := true, isSearching := false }, n)

/-- Embeds `handleLocationFound`: a successful geolocation callback sets the bias
point with `'user'` provenance and flies to it (`flyTo(position, 16)`). -/
def handleLocationFound (s : AppState) (position : ℚ × ℚ) : AppState :=
  { s with biasLocation := some position, biasType := some BiasType.user,
           isAnimating := true, showSidebar := false,
           flyTarget := some (position, 16) }

/-- First display-name segment with the JS falsy fallback
(`data.display_name?.split(',')[0] || 'Pin dropped'`). -/
def displayHead (dn : Option String) : String :=
  match dn with
  | none => "Pin dropped"
  | some s =>
    let h := (s.splitOn ",").headD ""
    if h = "" then "Pin dropped" else h

/-- The pin toast label `data.name || data.display_name?.split(',')[0] ||
'Pin dropped'`; `rev = none` models a failed reverse-geocoding fetch. -/
def pinToastName (rev : Option RevGeo) : String :=
  match rev with
  | none => "Pin dropped"
  | some d =>
    match d.name with
    | some n => if n = "" then displayHead d.display_name else n
    | none => displayHead d.display_name

/-- Embeds `handleMapClick`: ignored while animating; otherwise the tap replaces the
bias point with `'dropped'` provenance, clears the selected place, and shows
a toast labelled by reverse geocoding. -/
def handleMapClick (s : AppState) (pos : ℚ × ℚ) (rev : Option RevGeo) :
    AppState :=
  if s.isAnimating = true then s
  else
    { s with biasLocation := some pos, biasType := some BiasType.dropped,
             selectedPlace := none,
             toast := some ("📌 " ++ pinToastName rev) }

/-- Embeds `handleDirections`: refused up front when no place is selected or no bias
point exists (no request, only a toast).  Otherwise one routing request is
issued; a response with code `Ok` and a nonempty route list yields the road
route (geometry components swapped to `[lat, lon]`, distance in km, duration
rounded to minutes); any other response, and a thrown fetch (`resp = none`),
fall back to the straight line between the endpoints with no duration.
Returns the new state and whether a routing request was issued. -/
def handleDirections (dist : ℚ → ℚ → ℚ → ℚ → ℚ) (s : AppState)
    (resp : Option OsrmResponse) : AppState × Bool :=
  match s.selectedPlace, s.biasLocation with
  | none, _ => ({ s with toast := some "📍 Need your location first" }, false)
  | some _, none => ({ s with toast := some "📍 Need your location first" }, false)
  | some place, some bias =>
    let endLat := place.lat
    let endLon := place.lon
    let straight : String → AppState × Bool := fun suffix =>
      let d := dist bias.1 bias.2 endLat endLon
      ({ s with
          routeInfo := some
            { start := bias, endPt := (endLat, endLon), distance := d,
              duration := none, destination := place.name,
              coordinates := [bias, (endLat, endLon)] },
          showSidebar := false,
          toast := some ("📏 " ++ formatDistance d ++ suffix) }, true)
    match resp with
    | none => straight ""
    | some data =>
      match data.routes with
      | [] => straight " straight"
      | route :: _ =>
        if data.code = "Ok" then
          let coordinates := route.geometry.map (fun c => (c.2, c.1))
          let distanceKm := route.distance / 1000
          let durationMin := jsRound (route.duration / 60)
          ({ s with
              routeInfo := some
                { start := bias, endPt := (endLat, endLon),
                  distance := distanceKm, duration := some durationMin,
                  destination := place.name, coordinates := coordinates },
              showSidebar := false,
              toast := some ("🧭 " ++ formatDistance distanceKm ++ " • " ++
                             toString durationMin ++ " min") }, true)
        else straight " straight"

/-- Embeds `clearAll`: clear markers, selection, filter, results and route; the
comment in the source says "Keep bias location", and indeed neither
`biasLocation` nor `biasType` is touched. -/
def clearAll (s : AppState) : AppState :=
  { s with filterMarkers := [], searchMarker := none, selectedPlace := none,
           activeFilter := none, searchResults := [], routeInfo := none }

/-- The app state at startup: every `useState` field of interest starts
empty/false (`useState(null)`, `useState([])`, `useState('')`,
`useState(false)`). -/
def emptyState : AppState :=
  { biasLocation := none, biasType := none, flyTarget := none,
    isAnimating := false, filterMarkers := [], searchMarker := none,
    searchQuery := "", searchResults := [], isSearching := false,
    activeFilter := none, showSidebar := false, selectedPlace := none,
    toast := none, routeInfo := none }

/-- C8: `formatDistance` renders distances under 1 km as whole (rounded)
meters, distances in [1 km, 10 km) as kilometers with one decimal place, and
distances of 10 km or more as whole kilometers; in particular 0.999 km is
"999 m", 1.0 km is "1.0 km", 9.999 km is "10.0 km" and 10.0 km is "10 km". -/
theorem formatDistance_ranges :
    (∀ km : ℚ, km < 1 → formatDistance km = toString (jsRound (km * 1000)) ++ " m") ∧
    (∀ km : ℚ, 1 ≤ km → km < 10 → formatDistance km = toFixed1 km ++ " km") ∧
    (∀ km : ℚ, 10 ≤ km → formatDistance km = toString (jsRound km) ++ " km") ∧
    formatDistance (999 / 1000) = "999 m" ∧
    formatDistance 1 = "1.0 km" ∧
    formatDistance (9999 / 1000) = "10.0 km" ∧
    formatDistance 10 = "10 km" := by
  refine ⟨?_, ?_, ?_, ?_, ?_, ?_, ?_⟩
  · intro km h
    rw [formatDistance, if_pos h]
  · intro km h1 h2
    rw [formatDistance, if_neg (not_lt.mpr h1), if_pos h2]
  · intro km h
    rw [formatDistance, if_neg (not_lt.mpr (by linarith)), if_neg (not_lt.mpr h)]
  · norm_num [formatDistance, toFixed1, jsRound]; decide
  · norm_num [formatDistance, toFixed1, jsRound]; decide
  · norm_num [formatDistance, toFixed1, jsRound]; decide
  · norm_num [formatDistance, toFixed1, jsRound]; decide

/-- Witness for C8: the one-decimal branch at 2.5 km. -/
theorem formatDistance_ranges_witness :
    (1 : ℚ) ≤ 5 / 2 ∧ (5 / 2 : ℚ) < 10 ∧
      formatDistance (5 / 2) = toFixed1 (5 / 2) ++ " km" :=
  ⟨by norm_num, by norm_num,
    formatDistance_ranges.2.1 (5 / 2) (by norm_num) (by norm_num)⟩

/-- C10: `clearAll` empties the filter markers, the search marker, the
selected place, the active filter, the search results and the route info,
and leaves the bias location and its provenance tag unchanged. -/
theorem clearAll_frame (s : AppState) :
    (clearAll s).filterMarkers = [] ∧ (clearAll s).searchMarker = none ∧
    (clearAll s).selectedPlace = none ∧ (clearAll s).activeFilter = none ∧
    (clearAll s).searchResults = [] ∧ (clearAll s).routeInfo = none ∧
    (clearAll s).biasLocation = s.biasLocation ∧
    (clearAll s).biasType = s.biasType := by
  simp [clearAll]

/-- C7: a map tap (when not ignored by the animation guard) always sets the
bias provenance to `'dropped'` and the bias location to the tapped point,
and a successful locate-me geolocation always sets the provenance to
`'user'`, both regardless of the prior provenance state. -/
theorem biasPoint_provenance (s t : AppState) (pos posLoc : ℚ × ℚ)
    (rev : Option RevGeo) (h : s.isAnimating = false) :
    (handleMapClick s pos rev).biasType = some BiasType.dropped ∧
    (handleMapClick s pos rev).biasLocation = some pos ∧
    (handleLocationFound t posLoc).biasType = some BiasType.user ∧
    (handleLocationFound t posLoc).biasLocation = some posLoc := by
  simp [handleMapClick, handleLocationFound, h]

/-- Witness for C7: tap at (1, 2) from the startup state, locate at (3, 4)
from a previously dropped-pin state. -/
theorem biasPoint_provenance_witness :
    emptyState.isAnimating = false ∧
    ((handleMapClick emptyState (1, 2) none).biasType = some BiasType.dropped ∧
     (handleMapClick emptyState (1, 2) none).biasLocation = some (1, 2) ∧
     (handleLocationFound { emptyState with
        biasLocation := some (9, 9), biasType := some BiasType.dropped }
        (3, 4)).biasType = some BiasType.user ∧
     (handleLocationFound { emptyState with
        biasLocation := some (9, 9), biasType := some BiasType.dropped }
        (3, 4)).biasLocation = some (3, 4)) :=
  ⟨rfl, biasPoint_provenance emptyState
    { emptyState with biasLocation := some (9, 9),
                      biasType := some BiasType.dropped }
    (1, 2) (3, 4) none rfl⟩

/-- C3: requesting directions with no bias point set issues no routing
request, leaves the route state unchanged, and reports the precondition
notice toast. -/
theorem directions_noBias (dist : ℚ → ℚ → ℚ → ℚ → ℚ) (s : AppState)
    (resp : Option OsrmResponse) (h : s.biasLocation = none) :
    (handleDirections dist s resp).2 = false ∧
    (handleDirections dist s resp).1.routeInfo = s.routeInfo ∧
    (handleDirections dist s resp).1.toast = some "📍 Need your location first" := by
  cases hp : s.selectedPlace <;> simp [handleDirections, hp, h]

/-- Witness for C3: the startup state has no bias point. -/
theorem directions_noBias_witness :
    emptyState.biasLocation = none ∧
    ((handleDirections (fun _ _ _ _ => 0) emptyState none).2 = false ∧
     (handleDirections (fun _ _ _ _ => 0) emptyState none).1.routeInfo =
       emptyState.routeInfo ∧
     (handleDirections (fun _ _ _ _ => 0) emptyState none).1.toast =
       some "📍 Need your location first") :=
  ⟨rfl, directions_noBias (fun _ _ _ _ => 0) emptyState none rfl⟩

/-- C2: when a bias point and a selected destination exist and the routing
call fails (thrown fetch, non-`Ok` code, or empty route list), the resulting
route is the straight-line fallback: its path is exactly
`[bias point, destination]`, its distance is the (haversine) distance
between those two endpoints, and no duration is set. -/
theorem directions_fallback (dist : ℚ → ℚ → ℚ → ℚ → ℚ) (s : AppState)
    (resp : Option OsrmResponse) (bias : ℚ × ℚ) (place : SelectedPlace)
    (hb : s.biasLocation = some bias) (hp : s.selectedPlace = some place)
    (hfail : resp = none ∨ ∃ r, resp = some r ∧ (¬ r.code = "Ok" ∨ r.routes = [])) :
    (handleDirections dist s resp).1.routeInfo =
      some { start := bias, endPt := (place.lat, place.lon),
             distance := dist bias.1 bias.2 place.lat place.lon,
             duration := none, destination := place.name,
             coordinates := [bias, (place.lat, place.lon)] } ∧
    (handleDirections dist s resp).2 = true := by
  rcases hfail with rfl | ⟨r, rfl, hr⟩
  · simp [handleDirections, hb, hp]
  · rcases hcases : r.routes with _ | ⟨route, rest⟩
    · simp [handleDirections, hb, hp, hcases]
    · rcases hr with hcode | hnil
      · simp [handleDirections, hb, hp, hcases, hcode]
      · rw [hnil] at hcases
        cases hcases

/-- The destination used in the C2 witness. -/
def placeC2 : SelectedPlace :=
  { name := "P", address := "P, Q", lat := 3, lon := 4, distance := 5 }

/-- The app state used in the C2 witness: bias point (0, 0) and destination
`placeC2` both present. -/
def stateC2 : AppState :=
  { emptyState with
      biasLocation := some (0, 0),
      selectedPlace := some placeC2 }

/-- Witness for C2: a thrown routing fetch from `stateC2`. -/
theorem directions_fallback_witness :
    stateC2.biasLocation = some (0, 0) ∧
    stateC2.selectedPlace = some placeC2 ∧
    ((handleDirections (fun _ _ _ _ => 7) stateC2 none).1.routeInfo =
      some { start := (0, 0), endPt := (placeC2.lat, placeC2.lon),
             distance := 7, duration := none, destination := placeC2.name,
             coordinates := [(0, 0), (placeC2.lat, placeC2.lon)] } ∧
     (handleDirections (fun _ _ _ _ => 7) stateC2 none).2 = true) :=
  ⟨rfl, rfl,
    directions_fallback (fun _ _ _ _ => 7) stateC2 none (0, 0) placeC2
      rfl rfl (Or.inl rfl)⟩

/-- Concrete inputs refuting C4 as stated: a successful OSRM response whose
single route has a two-vertex geometry. -/
def respC4 : OsrmResponse :=
  { code := "Ok",
    routes := [{ geometry := [(0, 0), (1, 1)], distance := 157000,
                 duration := 3600 }] }

/-- The app state for the C4 counterexample: bias point and selected
destination both present. -/
def stateC4 : AppState :=
  { emptyState with
      biasLocation := some (0, 0),
      biasType := some BiasType.user,
      selectedPlace := some { name := "X", address := "X, Y", lat := 1,
                              lon := 1, distance := 0 } }

/-- Counterexample to C4 as stated: this directions request receives a
successful response (`code = "Ok"`, one route), yet the resulting
coordinates list has length 2, not greater than 2 — the code copies the
route geometry verbatim and never guarantees more than two vertices. -/
theorem directions_success_counterexample :
    respC4.code = "Ok" ∧ respC4.routes ≠ [] ∧
    stateC4.biasLocation = some (0, 0) ∧
    stateC4.selectedPlace ≠ none ∧
    (handleDirections (fun _ _ _ _ => 0) stateC4 (some respC4)).1.routeInfo.map
        (fun ri => ri.coordinates.length) = some 2 ∧
    ¬ (2 : ℕ) > 2 := by
  refine ⟨rfl, by simp [respC4], rfl, by simp [stateC4], ?_, by omega⟩
  rfl

/-- C4 (amended): for every directions request that receives a successful
routing response with a non-empty route list, the resulting route's
coordinates are exactly the first route's geometry with each vertex's
components swapped into `[lat, lon]` order — hence of the same length as
that geometry, and of length greater than 2 exactly when the geometry has
more than two vertices — and the duration field is set (to the rounded
minutes of the route's duration). -/
theorem directions_success (dist : ℚ → ℚ → ℚ → ℚ → ℚ) (s : AppState)
    (resp : OsrmResponse) (bias : ℚ × ℚ) (place : SelectedPlace)
    (route : OsrmRoute) (rest : List OsrmRoute)
    (hb : s.biasLocation = some bias) (hp : s.selectedPlace = some place)
    (hc : resp.code = "Ok") (hr : resp.routes = route :: rest) :
    ∃ ri, (handleDirections dist s (some resp)).1.routeInfo = some ri ∧
      ri.coordinates = route.geometry.map (fun c => (c.2, c.1)) ∧
      ri.coordinates.length = route.geometry.length ∧
      ri.duration = some (jsRound (route.duration / 60)) ∧
      (2 < route.geometry.length → 2 < ri.coordinates.length) := by
  have h : (handleDirections dist s (some resp)).1.routeInfo =
      some { start := bias, endPt := (place.lat, place.lon),
             distance := route.distance / 1000,
             duration := some (jsRound (route.duration / 60)),
             destination := place.name,
             coordinates := route.geometry.map (fun c => (c.2, c.1)) } := by
    simp [handleDirections, hb, hp, hr, hc]
  exact ⟨_, h, rfl, by simp, rfl, fun hgt => by simpa using hgt⟩

/-- Witness for C4 (amended): a successful response with a three-vertex
geometry yields a three-vertex path and a duration. -/
theorem directions_success_witness :
    stateC4.biasLocation = some (0, 0) ∧
    ({ code := "Ok",
       routes := [{ geometry := [(0, 0), (1, 0), (1, 1)], distance := 2000,
                    duration := 120 }] } : OsrmResponse).code = "Ok" ∧
    ∃ ri, (handleDirections (fun _ _ _ _ => 0) stateC4
        (some { code := "Ok",
                routes := [{ geometry := [(0, 0), (1, 0), (1, 1)],
                             distance := 2000,
                             duration := 120 }] })).1.routeInfo = some ri ∧
      ri.coordinates =
        ([(0, 0), (1, 0), (1, 1)] : List (ℚ × ℚ)).map (fun c => (c.2, c.1)) ∧
      ri.coordinates.length =
        ([(0, 0), (1, 0), (1, 1)] : List (ℚ × ℚ)).length ∧
      ri.duration = some (jsRound (120 / 60)) ∧
      (2 < ([(0, 0), (1, 0), (1, 1)] : List (ℚ × ℚ)).length →
        2 < ri.coordinates.length) :=
  ⟨rfl, rfl,
    directions_success (fun _ _ _ _ => 0) stateC4
      { code := "Ok",
        routes := [{ geometry := [(0, 0), (1, 0), (1, 1)], distance := 2000,
                     duration := 120 }] }
      (0, 0) { name := "X", address := "X, Y", lat := 1, lon := 1,
               distance := 0 }
      { geometry := [(0, 0), (1, 0), (1, 1)], distance := 2000,
        duration := 120 }
      [] rfl rfl rfl rfl⟩

/-- C1: when the tight-radius search returns zero results and the
second-radius search returns a nonzero list, the stored search results are
exactly that second-tier list annotated with distance from the bias point,
stably sorted ascending by that distance, truncated to at most 6; they are
sorted, at most 6 long, and every entry's `distance` is its distance from
the bias point. -/
theorem search_secondTier (dist : ℚ → ℚ → ℚ → ℚ → ℚ) (s : AppState)
    (geo : Option (ℚ × ℚ)) (r2l : List SearchItem)
    (r3 : Option (List SearchItem)) (lat lon : ℚ)
    (hq : ¬ jsTrim s.searchQuery = "") (ha : s.isAnimating = false)
    (hb : s.biasLocation = some (lat, lon)) (h2 : ¬ r2l = []) :
    (handleSearch dist s geo (some []) (some r2l) r3).1.searchResults =
      (List.insertionSort byDistance (r2l.map (annotate dist lat lon))).take 6 ∧
    List.Sorted byDistance
      (handleSearch dist s geo (some []) (some r2l) r3).1.searchResults ∧
    (handleSearch dist s geo (some []) (some r2l) r3).1.searchResults.length ≤ 6 ∧
    ∀ x ∈ (handleSearch dist s geo (some []) (some r2l) r3).1.searchResults,
      x.distance = dist lat lon x.lat x.lon := by
  have key : (handleSearch dist s geo (some []) (some r2l) r3).1.searchResults =
      annotateAndRank dist lat lon r2l 6 := by
    simp [handleSearch, hq, ha, ensureBiasLocation, hb, searchTiers,
          List.isEmpty_eq_false.mpr h2]
  rw [key]
  refine ⟨rfl, ?_, ?_, ?_⟩
  · exact List.Pairwise.sublist (List.take_sublist _ _)
      (List.sorted_insertionSort byDistance _)
  · rw [annotateAndRank, List.length_take]
    exact min_le_left _ _
  · intro x hx
    rw [annotateAndRank] at hx
    have hx1 : x ∈ List.insertionSort byDistance (r2l.map (annotate dist lat lon)) :=
      List.mem_of_mem_take hx
    have hx2 : x ∈ r2l.map (annotate dist lat lon) :=
      (List.perm_insertionSort byDistance _).mem_iff.mp hx1
    obtain ⟨a, _, rfl⟩ := List.mem_map.mp hx2
    rfl

/-- A state with a bias point already set, used by several witnesses. -/
def biasedState : AppState :=
  { emptyState with biasLocation := some (1, 2) }

/-- The C1 witness state: bias point set and a nonempty query typed. -/
def searchStateC1 : AppState :=
  { biasedState with searchQuery := "church" }

/-- The single second-tier result of the C1 witness. -/
def itemC1 : SearchItem :=
  { place_id := 11, display_name := "A, B", lat := 3, lon := 4 }

/-- Witness for C1: tight tier empty, second tier returns one result. -/
theorem search_secondTier_witness :
    ¬ jsTrim searchStateC1.searchQuery = "" ∧
    searchStateC1.isAnimating = false ∧
    searchStateC1.biasLocation = some (1, 2) ∧
    ¬ [itemC1] = [] ∧
    ((handleSearch (fun _ _ _ _ => 0) searchStateC1 none (some []) (some [itemC1])
        none).1.searchResults =
      (List.insertionSort byDistance
        ([itemC1].map (annotate (fun _ _ _ _ => 0) 1 2))).take 6 ∧
     List.Sorted byDistance
      (handleSearch (fun _ _ _ _ => 0) searchStateC1 none (some []) (some [itemC1])
        none).1.searchResults ∧
     (handleSearch (fun _ _ _ _ => 0) searchStateC1 none (some []) (some [itemC1])
        none).1.searchResults.length ≤ 6 ∧
     ∀ x ∈ (handleSearch (fun _ _ _ _ => 0) searchStateC1 none (some [])
        (some [itemC1]) none).1.searchResults,
       x.distance = (fun _ _ _ _ => (0 : ℚ)) 1 2 x.lat x.lon) :=
  ⟨by decide, rfl, rfl, by simp,
    search_secondTier (fun _ _ _ _ => 0) searchStateC1 none [itemC1] none 1 2
      (by decide) rfl rfl (by simp)⟩

/-- C5: when the tight-radius results are merged with a wider-radius result
set (each tier's ids pairwise distinct, as API result sets are), every place
identifier occurs exactly once in the merged list: the merged id list has no
duplicates, an id is present iff it came from one of the two tiers, and for
an id the tight tier already had, the merged entries with that id are
exactly the tight-tier ones (first occurrence kept). -/
theorem mergeDedup_unique (d w : List SearchItem)
    (hd : (d.map SearchItem.place_id).Nodup)
    (hw : (w.map SearchItem.place_id).Nodup) :
    ((mergeDedup d w).map SearchItem.place_id).Nodup ∧
    (∀ i, i ∈ (mergeDedup d w).map SearchItem.place_id ↔
      i ∈ d.map SearchItem.place_id ∨ i ∈ w.map SearchItem.place_id) ∧
    ∀ i ∈ d.map SearchItem.place_id,
      (mergeDedup d w).filter (fun x => x.place_id == i) =
        d.filter (fun x => x.place_id == i) := by
  refine ⟨?_, ?_, ?_⟩
  · rw [mergeDedup, List.map_append, List.nodup_append]
    refine ⟨hd, hw.sublist ((List.filter_sublist w).map SearchItem.place_id), ?_⟩
    intro a had haw
    obtain ⟨x, hxw, rfl⟩ := List.mem_map.mp haw
    have hpred := (List.mem_filter.mp hxw).2
    rw [Bool.not_eq_true', ← Bool.not_eq_true, List.elem_iff] at hpred
    exact hpred had
  · intro i
    rw [mergeDedup, List.map_append, List.mem_append]
    constructor
    · rintro (h | h)
      · exact Or.inl h
      · obtain ⟨x, hxw, rfl⟩ := List.mem_map.mp h
        exact Or.inr (List.mem_map_of_mem _ (List.mem_filter.mp hxw).1)
    · rintro (h | h)
      · exact Or.inl h
      · by_cases hmem : i ∈ d.map SearchItem.place_id
        · exact Or.inl hmem
        · obtain ⟨x, hxw, rfl⟩ := List.mem_map.mp h
          refine Or.inr (List.mem_map_of_mem _ (List.mem_filter.mpr ⟨hxw, ?_⟩))
          rw [Bool.not_eq_true', ← Bool.not_eq_true, List.elem_iff]
          exact hmem
  · intro i hi
    rw [mergeDedup, List.filter_append]
    have hnil : (w.filter
        (fun item => !((d.map SearchItem.place_id).contains item.place_id))).filter
        (fun x => x.place_id == i) = [] := by
      rw [List.filter_eq_nil_iff]
      intro a ha hbeq
      obtain ⟨_, hpred⟩ := List.mem_filter.mp ha
      rw [Bool.not_eq_true', ← Bool.not_eq_true, List.elem_iff] at hpred
      have : a.place_id = i := by simpa using hbeq
      rw [this] at hpred
      exact hpred hi
    rw [hnil, List.append_nil]

/-- Witness for C5: tiers `[11, 12]` and `[12, 13]` share id 12; the merged
list keeps the tight-tier entry for 12 and has each id once. -/
theorem mergeDedup_unique_witness :
    (([ itemC1, { place_id := 12, display_name := "C", lat := 5, lon := 6 } ] :
        List SearchItem).map SearchItem.place_id).Nodup ∧
    (([ { place_id := 12, display_name := "D", lat := 7, lon := 8 },
        { place_id := 13, display_name := "E", lat := 9, lon := 10 } ] :
        List SearchItem).map SearchItem.place_id).Nodup ∧
    ((mergeDedup
        [ itemC1, { place_id := 12, display_name := "C", lat := 5, lon := 6 } ]
        [ { place_id := 12, display_name := "D", lat := 7, lon := 8 },
          { place_id := 13, display_name := "E", lat := 9, lon := 10 } ]).map
        SearchItem.place_id).Nodup :=
  ⟨by decide, by decide,
    (mergeDedup_unique
      [ itemC1, { place_id := 12, display_name := "C", lat := 5, lon := 6 } ]
      [ { place_id := 12, display_name := "D", lat := 7, lon := 8 },
        { place_id := 13, display_name := "E", lat := 9, lon := 10 } ]
      (by decide) (by decide)).1⟩

/-- After a category filter activation (guard passed, category not active,
bias point already set), the filter is active, no animation started, and the
bias point is unchanged — whatever the network outcomes were. -/
theorem categoryFilter_activate (dist : ℚ → ℚ → ℚ → ℚ → ℚ) (s : AppState)
    (catId : String) (geo : Option (ℚ × ℚ)) (r1 r2 : Option (List SearchItem))
    (b : ℚ × ℚ)
    (ha : s.isAnimating = false) (hb : s.biasLocation = some b)
    (hne : ¬ s.activeFilter = some catId) :
    (handleCategoryFilter dist s catId geo r1 r2).1.activeFilter = some catId ∧
    (handleCategoryFilter dist s catId geo r1 r2).1.isAnimating = false ∧
    (handleCategoryFilter dist s catId geo r1 r2).1.biasLocation = some b := by
  rcases h : categoryTiers r1 r2 with ⟨d, n⟩
  cases d <;>
    simp [handleCategoryFilter, ha, hne, ensureBiasLocation, hb, h]

/-- C6: selecting the category that is already the active filter clears the
filter, empties search results and filter markers, and issues no geocoding
query; and starting from an inactive state, selecting the same category
twice (activate, then select again) also ends with the filter cleared,
empty results and markers, and no query on the second selection. -/
theorem categoryFilter_toggle (dist : ℚ → ℚ → ℚ → ℚ → ℚ) (s : AppState)
    (catId : String) (geo geoB : Option (ℚ × ℚ))
    (r1 r2 r1B r2B : Option (List SearchItem)) (b : ℚ × ℚ)
    (ha : s.isAnimating = false) (hb : s.biasLocation = some b) :
    (s.activeFilter = some catId →
      handleCategoryFilter dist s catId geo r1 r2 =
        ({ s with activeFilter := none, searchResults := [],
                  filterMarkers := [] }, 0)) ∧
    (¬ s.activeFilter = some catId →
      (handleCategoryFilter dist
        (handleCategoryFilter dist s catId geo r1 r2).1
        catId geoB r1B r2B).1.searchResults = [] ∧
      (handleCategoryFilter dist
        (handleCategoryFilter dist s catId geo r1 r2).1
        catId geoB r1B r2B).1.filterMarkers = [] ∧
      (handleCategoryFilter dist
        (handleCategoryFilter dist s catId geo r1 r2).1
        catId geoB r1B r2B).1.activeFilter = none ∧
      (handleCategoryFilter dist
        (handleCategoryFilter dist s catId geo r1 r2).1
        catId geoB r1B r2B).2 = 0) := by
  constructor
  · intro hact
    simp [handleCategoryFilter, ha, hact]
  · intro hne
    obtain ⟨h1, h2, _⟩ :=
      categoryFilter_activate dist s catId geo r1 r2 b ha hb hne
    generalize hgen : (handleCategoryFilter dist s catId geo r1 r2).1 = s1 at h1 h2
    simp [handleCategoryFilter, h2, h1]

/-- Witness for C6: activate "atm" from a biased inactive state, then select
it again; results and markers end empty. -/
theorem categoryFilter_toggle_witness :
    biasedState.isAnimating = false ∧
    biasedState.biasLocation = some (1, 2) ∧
    ¬ biasedState.activeFilter = some "atm" ∧
    ((handleCategoryFilter (fun _ _ _ _ => 0)
        (handleCategoryFilter (fun _ _ _ _ => 0) biasedState "atm" none
          (some []) (some [])).1
        "atm" none (some []) (some [])).1.searchResults = [] ∧
     (handleCategoryFilter (fun _ _ _ _ => 0)
        (handleCategoryFilter (fun _ _ _ _ => 0) biasedState "atm" none
          (some []) (some [])).1
        "atm" none (some []) (some [])).1.filterMarkers = [] ∧
     (handleCategoryFilter (fun _ _ _ _ => 0)
        (handleCategoryFilter (fun _ _ _ _ => 0) biasedState "atm" none
          (some []) (some [])).1
        "atm" none (some []) (some [])).1.activeFilter = none ∧
     (handleCategoryFilter (fun _ _ _ _ => 0)
        (handleCategoryFilter (fun _ _ _ _ => 0) biasedState "atm" none
          (some []) (some [])).1
        "atm" none (some []) (some [])).2 = 0) :=
  ⟨rfl, rfl, by simp [biasedState, emptyState],
    (categoryFilter_toggle (fun _ _ _ _ => 0) biasedState "atm" none none
      (some []) (some []) (some []) (some []) (1, 2) rfl rfl).2
      (by simp [biasedState, emptyState])⟩

/-- The free-text tier logic issues at most 3 requests; a second tier is
reached only when tier 1 returned zero results, and a third only when tiers
1 and 2 both returned zero results. -/
theorem searchTiers_spec (r1 r2 r3 : Option (List SearchItem)) :
    (searchTiers r1 r2 r3).2 ≤ 3 ∧
    (2 ≤ (searchTiers r1 r2 r3).2 → r1 = some []) ∧
    ((searchTiers r1 r2 r3).2 = 3 → r1 = some [] ∧ r2 = some []) := by
  rcases r1 with _ | d1
  · simp [searchTiers]
  · cases hd1 : d1.isEmpty
    · simp [searchTiers, hd1]
    · have hd1B : d1 = [] := List.isEmpty_iff.mp hd1
      subst hd1B
      rcases r2 with _ | d2
      · simp [searchTiers]
      · cases hd2 : d2.isEmpty
        · simp [searchTiers, hd2]
        · have hd2B : d2 = [] := List.isEmpty_iff.mp hd2
          subst hd2B
          rcases r3 with _ | d3 <;> simp [searchTiers]

/-- The category tier logic issues at most 2 requests; a second tier is
reached only when tier 1 returned fewer than 5 results. -/
theorem categoryTiers_spec (r1 r2 : Option (List SearchItem)) :
    (categoryTiers r1 r2).2 ≤ 2 ∧
    ((categoryTiers r1 r2).2 = 2 → ∃ l1, r1 = some l1 ∧ l1.length < 5) := by
  rcases r1 with _ | d1
  · simp [categoryTiers]
  · by_cases h : d1.length < 5
    · rcases r2 with _ | d2 <;>
        exact ⟨by simp [categoryTiers, h], fun _ => ⟨d1, rfl, h⟩⟩
    · simp [categoryTiers, h]

/-- Lemma: `handleSearch` issues either no request (guard refused) or exactly the
tier-logic count. -/
theorem handleSearch_count (dist : ℚ → ℚ → ℚ → ℚ → ℚ) (s : AppState)
    (geo : Option (ℚ × ℚ)) (r1 r2 r3 : Option (List SearchItem)) :
    (handleSearch dist s geo r1 r2 r3).2 = 0 ∨
    (handleSearch dist s geo r1 r2 r3).2 = (searchTiers r1 r2 r3).2 := by
  rw [handleSearch]
  split
  · exact Or.inl rfl
  · rcases h : searchTiers r1 r2 r3 with ⟨d, n⟩
    cases d <;> simp [h]

/-- Lemma: `handleCategoryFilter` issues either no request (guard refused or toggle
off) or exactly the tier-logic count. -/
theorem handleCategoryFilter_count (dist : ℚ → ℚ → ℚ → ℚ → ℚ) (s : AppState)
    (catId : String) (geo : Option (ℚ × ℚ)) (r1 r2 : Option (List SearchItem)) :
    (handleCategoryFilter dist s catId geo r1 r2).2 = 0 ∨
    (handleCategoryFilter dist s catId geo r1 r2).2 = (categoryTiers r1 r2).2 := by
  rw [handleCategoryFilter]
  split
  · exact Or.inl rfl
  · split
    · exact Or.inl rfl
    · rcases h : categoryTiers r1 r2 with ⟨d, n⟩
      cases d <;> simp [h]

/-- C9: a free-text search issues at most three geocoding requests and a
category filter at most two; a second search tier is reached only after a
zero-result first tier (and a third only after two zero-result tiers), and a
second category tier only after a below-threshold first tier — so the
widening sequence is bounded by its last tier. -/
theorem request_bounds (dist : ℚ → ℚ → ℚ → ℚ → ℚ) (s t : AppState)
    (catId : String) (geo geoB : Option (ℚ × ℚ))
    (r1 r2 r3 q1 q2 : Option (List SearchItem)) :
    (handleSearch dist s geo r1 r2 r3).2 ≤ 3 ∧
    (handleCategoryFilter dist t catId geoB q1 q2).2 ≤ 2 ∧
    (2 ≤ (handleSearch dist s geo r1 r2 r3).2 → r1 = some []) ∧
    ((handleSearch dist s geo r1 r2 r3).2 = 3 → r1 = some [] ∧ r2 = some []) ∧
    ((handleCategoryFilter dist t catId geoB q1 q2).2 = 2 →
      ∃ l1, q1 = some l1 ∧ l1.length < 5) := by
  have hsT := searchTiers_spec r1 r2 r3
  have hcT := categoryTiers_spec q1 q2
  refine ⟨?_, ?_, ?_, ?_, ?_⟩
  · rcases handleSearch_count dist s geo r1 r2 r3 with h | h <;> rw [h]
    · omega
    · exact hsT.1
  · rcases handleCategoryFilter_count dist t catId geoB q1 q2 with h | h <;> rw [h]
    · omega
    · exact hcT.1
  · rcases handleSearch_count dist s geo r1 r2 r3 with h | h <;> rw [h]
    · intro hcon; exact absurd hcon (by omega)
    · exact hsT.2.1
  · rcases handleSearch_count dist s geo r1 r2 r3 with h | h <;> rw [h]
    · intro hcon; exact absurd hcon (by omega)
    · exact hsT.2.2
  · rcases handleCategoryFilter_count dist t catId geoB q1 q2 with h | h <;> rw [h]
    · intro hcon; exact absurd hcon (by omega)
    · exact hcT.2

/-- Witness for C9: a concrete category filter whose tight tier returned
zero (< 5) results issues exactly 2 requests, licensed by the bound. -/
theorem request_bounds_witness :
    (handleCategoryFilter (fun _ _ _ _ => 0) biasedState "atm" none
      (some []) (some [])).2 = 2 ∧
    ∃ l1, (some ([] : List SearchItem)) = some l1 ∧ l1.length < 5 :=
  ⟨rfl,
    (request_bounds (fun _ _ _ _ => 0) emptyState biasedState "atm" none none
      none none none (some []) (some [])).2.2.2.2 rfl⟩
